import Mathlib

/-!
# Verification of the DOONDE stock-analysis metric pipeline

Shallow embedding of the metric-derivation pipeline of the repository
`DOONDE_STOCK_ANALYSIS` (files `STRONG_BUY_SIGNAL_ANALYSIS_10_09_2024.py`
and `Stock_profit_loss_day_day.py`).

Modelling conventions:
* Python floats are modelled as rationals `ℚ` (the pipeline only performs
  field arithmetic and order comparisons; `√252` in the annualized
  volatility is irrational, so the embedding tracks the *square* of the
  annualized volatility, which carries the same definedness and zeroness
  information).
* A pandas `DataFrame` is modelled column-wise.  The `Adj Close` column may
  be absent from the frame, hence `Option (List ℚ)`; derived columns start
  absent and are added by the pipeline functions.  pandas `NaN` cells
  (e.g. the first entry of a `shift(1)`-ed or `pct_change`-ed column) are
  modelled as `none` in a `List (Option ℚ)`.
* pandas in-place column assignment is modelled by explicit state passing:
  each pipeline function takes the frame and returns the updated frame.
-/

namespace Doonde

/-- A pandas DataFrame of one symbol's price history, column-wise.
Raw columns `Date`, `Open`, `High`, `Low`, `Close`, `Volume` are always
present (the data provider guarantees them); `AdjClose` (`'Adj Close'`)
may be missing.  Derived columns are `none` until a pipeline function
writes them.  Dates are modelled as integers (ordinal days). -/
structure DataFrame where
  Date : List ℤ
  Open : List ℚ
  High : List ℚ
  Low : List ℚ
  Close : List ℚ
  AdjClose : Option (List ℚ) := none
  Volume : List ℕ := []
  ProfitLoss : Option (List ℚ) := none
  AdjOpen : Option (List (Option ℚ)) := none
  EndResult : Option (List (Option ℚ)) := none
  SMA20 : Option (List (Option ℚ)) := none
  EMA20 : Option (List ℚ) := none
deriving DecidableEq, Repr

/-- The four investment decisions produced by `evaluate_investment`
(the source returns the strings "Strong Buy", "Buy", "Hold", "Sell"). -/
inductive Decision where
  | StrongBuy
  | Buy
  | Hold
  | Sell
deriving DecidableEq, Repr

/-- `evaluate_investment` of `STRONG_BUY_SIGNAL_ANALYSIS_10_09_2024.py`
(lines 53-67).  It receives the performance record's `'Total Return'` and
`'Volatility'` entries and returns the decision together with the sharpe
ratio.  A float `NaN` volatility (pandas `std` of fewer than two
observations) is modelled as `none`; in Python `NaN != 0` holds and
`total_return / NaN` is again `NaN`, hence the `none` branch also yields
`none`. `sharpe = total_return / volatility if volatility != 0 else nan`. -/
def evaluate_investment (total_return : ℚ) (volatility : Option ℚ) :
    Decision × Option ℚ :=
  let sharpe : Option ℚ :=
    match volatility with
    | some v => if v ≠ 0 then some (total_return / v) else none
    | none => none
  let decision : Decision :=
    if total_return > 0.2 then Decision.StrongBuy
    else if total_return > 0.1 then Decision.Buy
    else if total_return > 0 then Decision.Hold
    else Decision.Sell
  (decision, sharpe)

/-- pandas `Series.pct_change()` applied to a column
(`df['Daily Return'] = df['Close'].pct_change()`, line 23 of the signal
file): entry 0 is `NaN` (`none`), entry `t ≥ 1` is `x[t]/x[t-1] - 1`. -/
def pct_change (xs : List ℚ) : List (Option ℚ) :=
  match xs with
  | [] => []
  | _ :: rest => none :: List.zipWith (fun cur prev => some (cur / prev - 1)) rest xs

/-- pandas `Open - AdjClose.shift(1)` (line 71 of
`Stock_profit_loss_day_day.py`), for equal-length columns: entry 0 is
`NaN` (`none`), entry `t ≥ 1` is `opens[t] - adjcloses[t-1]`. -/
def adjOpenCol (opens adjcloses : List ℚ) : List (Option ℚ) :=
  match opens with
  | [] => []
  | _ :: os => none :: List.zipWith (fun o a => some (o - a)) os adjcloses

/-- pandas `Series.rolling(window=w).mean()` (line 130):
`NaN` (`none`) until `w` observations are available, then the arithmetic
mean of the trailing `w` entries. -/
def rolling_mean (w : ℕ) (xs : List ℚ) : List (Option ℚ) :=
  (List.range xs.length).map fun t =>
    if t + 1 < w then none
    else some ((((xs.drop (t + 1 - w)).take w).sum) / (w : ℚ))

/-- Tail of pandas `Series.ewm(span, adjust=False).mean()`: given the
smoothing factor `a` and the previous smoothed value `prev`, each entry is
`a * x + (1 - a) * prev`. -/
def ewmFrom (a prev : ℚ) : List ℚ → List ℚ
  | [] => []
  | x :: rest => (a * x + (1 - a) * prev) :: ewmFrom a (a * x + (1 - a) * prev) rest

/-- pandas `Series.ewm(span=span, adjust=False).mean()` (line 131): the
smoothing factor is `α = 2/(span+1)`, the first entry seeds the recursion
with `x[0]`, and entry `t` is `α·x[t] + (1-α)·ema[t-1]`. -/
def ewm_mean (span : ℕ) (xs : List ℚ) : List ℚ :=
  match xs with
  | [] => []
  | x :: rest => x :: ewmFrom (2 / ((span : ℚ) + 1)) x rest

/-- `calculate_profit_loss` (lines 56-58):
`data['Profit-Loss'] = data['Close'] - data['Open']`. -/
def calculate_profit_loss (d : DataFrame) : DataFrame :=
  { d with ProfitLoss := some (List.zipWith (fun c o => c - o) d.Close d.Open) }

/-- `calculate_adj_open` (lines 60-73): if the `'Adj Close'` column is
missing it is first written into the frame as a copy of `'Close'`
(`data['Adj Close'] = data['Close']`); then
`data['Adj/Open'] = data['Open'] - data['Adj Close'].shift(1)`.
The source also raises when `'Open'` is missing; the embedding's frame
always carries the required `Open` column, so that branch is vacuous. -/
def calculate_adj_open (d0 : DataFrame) : DataFrame :=
  let d := match d0.AdjClose with
    | none => { d0 with AdjClose := some d0.Close }
    | some _ => d0
  { d with AdjOpen := some (adjOpenCol d.Open (d.AdjClose.getD [])) }

/-- `add_end_result` (lines 82-84):
`data['End_Result'] = data['Adj/Open'] + data['Profit-Loss']`; a `NaN`
(`none`) in `Adj/Open` propagates to `End_Result`.  In the pipeline this
runs after the two columns were written; on a frame missing them the
source would raise a KeyError, modelled here by treating the missing
column as empty. -/
def add_end_result (d : DataFrame) : DataFrame :=
  { d with EndResult := some (List.zipWith (fun g p => g.map (fun x => x + p))
      (d.AdjOpen.getD []) (d.ProfitLoss.getD [])) }

/-- The dataframe mutation performed by `create_candlestick_chart`
(lines 128-131): `data['SMA20'] = data['Close'].rolling(window=20).mean()`
and `data['EMA20'] = data['Close'].ewm(span=20, adjust=False).mean()`.
The Plotly figure built from the mutated frame is presentation and is not
modelled; the function returns the mutated frame. -/
def create_candlestick_chart (d : DataFrame) : DataFrame :=
  { d with SMA20 := some (rolling_mean 20 d.Close)
           EMA20 := some (ewm_mean 20 d.Close) }

/-- Square of the sample standard deviation (pandas `Series.std()`,
`ddof=1`, `NaN` entries skipped by the caller): `NaN` (`none`) with fewer
than two observations.  The square is tracked because the source then
multiplies by the irrational `√252`. -/
def sampleStdSq (xs : List ℚ) : Option ℚ :=
  if xs.length < 2 then none
  else some (((xs.map fun x => (x - xs.sum / (xs.length : ℚ)) ^ 2).sum) /
    ((xs.length : ℚ) - 1))

/-- Error raised (surfaced as the `st.warning` "No data returned" /
"No data available" messages) when a pipeline summary is requested for a
series with zero rows. -/
inductive SummaryError where
  | EmptySeriesError
deriving DecidableEq, Repr

/-- The per-period summary record built by `fetch_stock_data`
(lines 41-46): `'Total Return'`, `'Volatility'` and `'Last Performance'`.
`volatilitySq` is the square of the annualized volatility
(`std(daily returns)² · 252`); `none` models float `NaN`. -/
structure PeriodSummary where
  total_return : ℚ
  volatilitySq : Option ℚ
  last_performance : Option ℚ
deriving DecidableEq, Repr

/-- The summary computation of `fetch_stock_data` (lines 17-46) for one
ticker, the source's realisation of the spec's `summarize`: an empty
frame is rejected (`if df.empty`, line 18 — `main` of
`Stock_profit_loss_day_day.py` performs the same check at line 223),
otherwise the daily returns, the total return
`(Close[-1] - Close[0]) / Close[0]`, the annualized volatility (squared
here, see `sampleStdSq`) and the last daily return are produced. -/
def summarize (d : DataFrame) : Except SummaryError PeriodSummary :=
  if d.Close.isEmpty then Except.error SummaryError.EmptySeriesError
  else
    let daily := pct_change d.Close
    Except.ok
      { total_return := (d.Close.getLastD 0 - d.Close.headD 0) / d.Close.headD 0
        volatilitySq := (sampleStdSq (daily.filterMap id)).map fun v => v * 252
        last_performance := daily.getLastD none }

/-- The per-symbol step of `main` (lines 218-229 of
`Stock_profit_loss_day_day.py`): an empty frame is reported as "No data
available" (`none`) and skipped; otherwise the three derivation passes
run.  The function is total: a non-empty frame always yields a frame. -/
def process_symbol (d : DataFrame) : Option DataFrame :=
  if d.Close.isEmpty then none
  else some (add_end_result (calculate_adj_open (calculate_profit_loss d)))

/-- `calculate_growth` (lines 32-41): from the `'Open'` column,
`growth_value = Open[-1] - Open[0]` and
`growth_percentage = (growth_value / Open[0]) * 100 if Open[0] != 0 else 0`. -/
def calculate_growth (d : DataFrame) : ℚ × ℚ :=
  let start_open := d.Open.headD 0
  let end_open := d.Open.getLastD 0
  let growth_value := end_open - start_open
  let growth_percentage := if start_open ≠ 0 then growth_value / start_open * 100 else 0
  (growth_value, growth_percentage)

/-- The `'Today Open Price'` selection of `fetch_stock_data`
(lines 28-39), on a non-empty frame: with `last_date = df.index[-1]` and
`today` the current wall-clock date,
`Open[-1]` if `last_date == today`, else `Adj Close[-1]` if
`last_date < today` (guarded by `len(df) > 0`), else `None`.
`adjcloses` is the frame's `'Adj Close'` column. -/
def today_open_price (dates : List ℤ) (opens adjcloses : List ℚ)
    (today : ℤ) : Option ℚ :=
  let last_date := dates.getLastD 0
  if last_date = today then some (opens.getLastD 0)
  else if last_date < today then
    (if 0 < dates.length then some (adjcloses.getLastD 0) else none)
  else none

/-- Equality of the raw input columns of two frames: the `date`, `open`,
`high`, `low`, `close`, `adjusted_close` and `volume` fields. -/
def rawEq (a b : DataFrame) : Prop :=
  a.Date = b.Date ∧ a.Open = b.Open ∧ a.High = b.High ∧ a.Low = b.Low ∧
  a.Close = b.Close ∧ a.AdjClose = b.AdjClose ∧ a.Volume = b.Volume

instance (a b : DataFrame) : Decidable (rawEq a b) := by
  unfold rawEq; infer_instance

/-- The three-row scenario series of the spec (opens 10, 12, 11 and
closes 12, 11, 13), with no `'Adj Close'` column, used as a concrete
evaluation input. -/
def scenarioFrame : DataFrame where
  Date := [1, 2, 3]
  Open := [10, 12, 11]
  High := [13, 13, 14]
  Low := [9, 10, 10]
  Close := [12, 11, 13]
  Volume := [100, 100, 100]

/-- A twenty-row series with closes 1, 2, …, 20, long enough for the
20-day moving-average window, used as a concrete evaluation input. -/
def frame20 : DataFrame where
  Date := [1, 2, 3, 4, 5, 6, 7, 8, 9, 10, 11, 12, 13, 14, 15, 16, 17, 18, 19, 20]
  Open := [1, 2, 3, 4, 5, 6, 7, 8, 9, 10, 11, 12, 13, 14, 15, 16, 17, 18, 19, 20]
  High := [2, 3, 4, 5, 6, 7, 8, 9, 10, 11, 12, 13, 14, 15, 16, 17, 18, 19, 20, 21]
  Low := [0, 1, 2, 3, 4, 5, 6, 7, 8, 9, 10, 11, 12, 13, 14, 15, 16, 17, 18, 19]
  Close := [1, 2, 3, 4, 5, 6, 7, 8, 9, 10, 11, 12, 13, 14, 15, 16, 17, 18, 19, 20]
  Volume := List.replicate 20 100

end Doonde

namespace Doonde

/-- **C1.** For every rational `total_return` (and any volatility), the
decision of `evaluate_investment` is `StrongBuy` iff `total_return > 0.20`,
`Buy` iff `0.10 < total_return ≤ 0.20`, `Hold` iff `0 < total_return ≤
0.10`, and `Sell` iff `total_return ≤ 0`; in particular the boundary
values `0.20`, `0.10` and `0.00` map to `Buy`, `Hold` and `Sell`
respectively. -/
theorem claim_C1_classify_thresholds (total_return : ℚ) (volatility : Option ℚ) :
    ((evaluate_investment total_return volatility).1 = Decision.StrongBuy ↔
      0.2 < total_return) ∧
    ((evaluate_investment total_return volatility).1 = Decision.Buy ↔
      0.1 < total_return ∧ total_return ≤ 0.2) ∧
    ((evaluate_investment total_return volatility).1 = Decision.Hold ↔
      0 < total_return ∧ total_return ≤ 0.1) ∧
    ((evaluate_investment total_return volatility).1 = Decision.Sell ↔
      total_return ≤ 0) ∧
    (evaluate_investment 0.2 volatility).1 = Decision.Buy ∧
    (evaluate_investment 0.1 volatility).1 = Decision.Hold ∧
    (evaluate_investment 0 volatility).1 = Decision.Sell := by
  have hb1 : (evaluate_investment 0.2 volatility).1 = Decision.Buy := by
    norm_num [evaluate_investment]
  have hb2 : (evaluate_investment 0.1 volatility).1 = Decision.Hold := by
    norm_num [evaluate_investment]
  have hb3 : (evaluate_investment 0 volatility).1 = Decision.Sell := by
    norm_num [evaluate_investment]
  refine ⟨?_, ?_, ?_, ?_, hb1, hb2, hb3⟩ <;>
    simp only [evaluate_investment] <;>
    split_ifs with h1 h2 h3 <;>
    simp_all
  all_goals first
    | linarith
    | (intro h; linarith)

/-- Index law for `List.zipWith`: within bounds, the `t`-th entry is `f`
applied to the `t`-th entries. -/
theorem zipWith_getD {α β γ : Type} (f : α → β → γ) (dx : α) (dy : β) (dz : γ)
    (xs : List α) (ys : List β) (t : ℕ) (hx : t < xs.length) (hy : t < ys.length) :
    (List.zipWith f xs ys).getD t dz = f (xs.getD t dx) (ys.getD t dy) := by
  induction xs generalizing ys t with
  | nil => simp at hx
  | cons x xs ih =>
    cases ys with
    | nil => simp at hy
    | cons y ys =>
      cases t with
      | zero => rfl
      | succ t =>
        simpa using ih ys t (by simpa using hx) (by simpa using hy)

/-- **C2.** `summarize` fails with `EmptySeriesError` exactly on a series
with zero rows, and the caller (`process_symbol`, modelling `main`)
surfaces an empty series as "no data" (`none`) and otherwise always
produces a result (it is total, hence never crashes). -/
theorem claim_C2_empty_series (d : DataFrame) :
    (summarize d = Except.error SummaryError.EmptySeriesError ↔ d.Close = []) ∧
    (process_symbol d = none ↔ d.Close = []) := by
  rcases hC : d.Close with _ | ⟨c, cs⟩ <;>
    simp [summarize, process_symbol, hC]

/-- **C3.** On a frame with no `adjusted_close` column, `calculate_adj_open`
produces exactly the same result as on the frame with `adjusted_close`
set to `close` in every row; in both cases the gap column has
`adj_open_gap[0]` undefined and `adj_open_gap[t] = open[t] -
adjusted_close[t-1]` for `t ≥ 1` (with `adjusted_close = close`). -/
theorem claim_C3_adjclose_fallback (d : DataFrame) (hnone : d.AdjClose = none)
    (hlen : d.Open.length = d.Close.length) :
    calculate_adj_open d = calculate_adj_open { d with AdjClose := some d.Close } ∧
    (calculate_adj_open d).AdjOpen = some (adjOpenCol d.Open d.Close) ∧
    (0 < d.Open.length → (adjOpenCol d.Open d.Close).getD 0 (some 0) = none) ∧
    (∀ t, 1 ≤ t → t < d.Open.length →
      (adjOpenCol d.Open d.Close).getD t none =
        some (d.Open.getD t 0 - d.Close.getD (t - 1) 0)) := by
  refine ⟨by simp [calculate_adj_open, hnone], by simp [calculate_adj_open, hnone], ?_, ?_⟩
  · intro hpos
    rcases hO : d.Open with _ | ⟨o, os⟩
    · rw [hO] at hpos; simp at hpos
    · simp [adjOpenCol]
  · intro t ht1 htl
    rcases hO : d.Open with _ | ⟨o, os⟩
    · rw [hO] at htl; simp at htl
    · rcases t with _ | s
      · omega
      · have hlo : os.length + 1 = d.Close.length := by
          rw [← hlen, hO]; simp
        have hs1 : s < os.length := by
          rw [hO] at htl; simpa using Nat.lt_of_succ_lt_succ htl
        have hs2 : s < d.Close.length := by omega
        simp only [adjOpenCol, List.getD_cons_succ, Nat.add_sub_cancel]
        rw [zipWith_getD (fun o a => some (o - a)) 0 0 none os d.Close s hs1 hs2]

/-- Concrete instance of C3: on the scenario frame (no `adjusted_close`
column) the fallback frame computes identically, and the gap at row 1 is
`open[1] - close[0] = 12 - 12 = 0`, at row 2 `11 - 11 = 0`. -/
theorem claim_C3_witness :
    calculate_adj_open scenarioFrame =
      calculate_adj_open { scenarioFrame with AdjClose := some scenarioFrame.Close } ∧
    (adjOpenCol scenarioFrame.Open scenarioFrame.Close).getD 1 none = some 0 ∧
    (adjOpenCol scenarioFrame.Open scenarioFrame.Close).getD 2 none = some 0 := by
  have h := claim_C3_adjclose_fallback scenarioFrame rfl rfl
  refine ⟨h.1, ?_, ?_⟩
  · rw [h.2.2.2 1 (by decide) (by decide)]; simp [scenarioFrame]
  · rw [h.2.2.2 2 (by decide) (by decide)]; simp [scenarioFrame]

/-- Concrete instance of C1: a 25 % total return classifies as
`StrongBuy`. -/
theorem claim_C1_witness :
    (evaluate_investment 0.25 none).1 = Decision.StrongBuy :=
  (claim_C1_classify_thresholds 0.25 none).1.mpr (by norm_num)

/-- **C4.** On every series with at least two rows, the daily-return
column has the same length as the series, its first entry is the
undefined marker `none` (the row is kept, and `none ≠ some 0`), and
entry `t ≥ 1` is `close[t]/close[t-1] - 1`. -/
theorem claim_C4_daily_return (d : DataFrame) (h2 : 2 ≤ d.Close.length) :
    (pct_change d.Close).length = d.Close.length ∧
    (pct_change d.Close).getD 0 (some 0) = none ∧
    ∀ t, 1 ≤ t → t < d.Close.length →
      (pct_change d.Close).getD t none =
        some (d.Close.getD t 0 / d.Close.getD (t - 1) 0 - 1) := by
  rcases hC : d.Close with _ | ⟨c, cs⟩
  · rw [hC] at h2; simp at h2
  · refine ⟨?_, rfl, ?_⟩
    · simp [pct_change, List.length_zipWith]
    · intro t ht1 htl
      rcases t with _ | s
      · omega
      · have hs1 : s < cs.length := by simpa using Nat.lt_of_succ_lt_succ htl
        have hs2 : s < (c :: cs).length := by simp; omega
        simp only [pct_change, List.getD_cons_succ, Nat.add_sub_cancel]
        rw [zipWith_getD (fun cur prev => some (cur / prev - 1)) 0 0 none
          cs (c :: cs) s hs1 hs2]

/-- Concrete instance of C4 on the scenario series (closes 12, 11, 13):
three entries, first undefined, third `13/11 - 1 = 2/11`. -/
theorem claim_C4_witness :
    (pct_change scenarioFrame.Close).length = 3 ∧
    (pct_change scenarioFrame.Close).getD 0 (some 0) = none ∧
    (pct_change scenarioFrame.Close).getD 2 none = some (2 / 11) := by
  have h := claim_C4_daily_return scenarioFrame (by decide)
  refine ⟨by rw [h.1]; rfl, h.2.1, ?_⟩
  rw [h.2.2 2 (by decide) (by decide)]
  norm_num [scenarioFrame]

/-- **C5.** On every non-empty series whose first close is nonzero,
`summarize` succeeds and its total return — computed in the source as
`(close[last] - close[first]) / close[first]` — equals
`close[last]/close[first] - 1`. -/
theorem claim_C5_total_return (d : DataFrame) (hne : d.Close ≠ [])
    (h0 : d.Close.headD 0 ≠ 0) :
    ∃ ps, summarize d = Except.ok ps ∧
      ps.total_return = d.Close.getLastD 0 / d.Close.headD 0 - 1 := by
  have hB : d.Close.isEmpty = false := by
    rcases hC : d.Close with _ | _
    · exact absurd hC hne
    · rfl
  simp only [summarize, hB, Bool.false_eq_true, if_false]
  refine ⟨_, rfl, ?_⟩
  show (d.Close.getLastD 0 - d.Close.headD 0) / d.Close.headD 0 = _
  rw [sub_div, div_self h0]

/-- Concrete instance of C5 on the scenario series (closes 12, 11, 13):
`summarize` succeeds with total return `13/12 - 1 = 1/12`. -/
theorem claim_C5_witness :
    ∃ ps, summarize scenarioFrame = Except.ok ps ∧ ps.total_return = 1 / 12 := by
  obtain ⟨ps, hok, htr⟩ := claim_C5_total_return scenarioFrame
    (by decide) (by norm_num [scenarioFrame])
  exact ⟨ps, hok, by rw [htr]; norm_num [scenarioFrame]⟩

/-- Index law for a map over `List.range`: within bounds the `t`-th entry
is `f t`. -/
theorem getD_range_map {γ : Type} (f : ℕ → γ) (n t : ℕ) (d : γ) (h : t < n) :
    ((List.range n).map f).getD t d = f t := by
  rw [List.getD_eq_getElem _ _ (by simpa using h)]
  simp

/-- `ewmFrom` preserves the length of its input. -/
theorem ewmFrom_length (a p : ℚ) (xs : List ℚ) :
    (ewmFrom a p xs).length = xs.length := by
  induction xs generalizing p with
  | nil => rfl
  | cons x rest ih => simp [ewmFrom, ih]

/-- Recurrence law for `ewmFrom` seeded with `p`: each entry is
`a · x[t] + (1 - a) ·` (previous entry). -/
theorem ewmFrom_cons_getD (a : ℚ) (xs : List ℚ) (p : ℚ) (t : ℕ)
    (h : t < xs.length) :
    (p :: ewmFrom a p xs).getD (t + 1) 0 =
      a * xs.getD t 0 + (1 - a) * ((p :: ewmFrom a p xs).getD t 0) := by
  induction xs generalizing p t with
  | nil => simp at h
  | cons x rest ih =>
    cases t with
    | zero => simp [ewmFrom]
    | succ s =>
      have hs : s < rest.length := by simpa using Nat.lt_of_succ_lt_succ h
      simpa [ewmFrom] using ih (a * x + (1 - a) * p) s hs

/-- **C6.** `create_candlestick_chart` writes the 20-day moving averages:
the SMA column is `none` before index 19 (hence everywhere on a series
shorter than 20 rows) and the mean of the trailing 20 closes from index
19 on; the EMA column is defined for every row, seeded with `close[0]`,
and obeys `ema[t] = α·close[t] + (1-α)·ema[t-1]` with `α = 2/21`. -/
theorem claim_C6_moving_averages (d : DataFrame) :
    (create_candlestick_chart d).SMA20 = some (rolling_mean 20 d.Close) ∧
    (create_candlestick_chart d).EMA20 = some (ewm_mean 20 d.Close) ∧
    (∀ t, t < 19 → t < d.Close.length →
      (rolling_mean 20 d.Close).getD t (some 0) = none) ∧
    (∀ t, 19 ≤ t → t < d.Close.length →
      (rolling_mean 20 d.Close).getD t none =
        some ((((d.Close.drop (t - 19)).take 20).sum) / 20)) ∧
    (d.Close.length < 20 → ∀ t, (rolling_mean 20 d.Close).getD t none = none) ∧
    (ewm_mean 20 d.Close).length = d.Close.length ∧
    (∀ c cs, d.Close = c :: cs → (ewm_mean 20 d.Close).getD 0 0 = c) ∧
    (∀ t, t + 1 < d.Close.length →
      (ewm_mean 20 d.Close).getD (t + 1) 0 =
        2 / 21 * d.Close.getD (t + 1) 0 +
          (1 - 2 / 21) * (ewm_mean 20 d.Close).getD t 0) := by
  refine ⟨rfl, rfl, ?_, ?_, ?_, ?_, ?_, ?_⟩
  · intro t h19 hlen
    rw [rolling_mean, getD_range_map _ _ _ _ hlen, if_pos (by omega)]
  · intro t h19 hlen
    rw [rolling_mean, getD_range_map _ _ _ _ hlen, if_neg (by omega)]
    have h20 : t + 1 - 20 = t - 19 := by omega
    rw [h20]
    norm_num
  · intro hlen t
    by_cases ht : t < d.Close.length
    · rw [rolling_mean, getD_range_map _ _ _ _ ht, if_pos (by omega)]
    · rw [List.getD_eq_default]
      simp only [rolling_mean, List.length_map, List.length_range]
      omega
  · rcases hC : d.Close with _ | ⟨c, cs⟩
    · rfl
    · simp [ewm_mean, ewmFrom_length]
  · intro c cs hC
    rw [hC]
    rfl
  · intro t ht
    rcases hC : d.Close with _ | ⟨c, cs⟩
    · rw [hC] at ht; simp at ht
    · rw [hC] at ht
      have ht' : t < cs.length := by simp at ht; omega
      simp only [ewm_mean]
      rw [ewmFrom_cons_getD _ cs c t ht']
      norm_num [List.getD_cons_succ]

/-- Concrete instance of C6 on the twenty-row series with closes
1, …, 20: SMA is undefined at index 18, at index 19 it is the mean
`(1+⋯+20)/20 = 21/2`; the EMA is seeded with `close[0] = 1` and its next
value is `2/21·2 + 19/21·1 = 23/21`. -/
theorem claim_C6_witness :
    (rolling_mean 20 frame20.Close).getD 18 (some 0) = none ∧
    (rolling_mean 20 frame20.Close).getD 19 none = some (21 / 2) ∧
    (ewm_mean 20 frame20.Close).getD 0 0 = 1 ∧
    (ewm_mean 20 frame20.Close).getD 1 0 = 23 / 21 := by
  have h := claim_C6_moving_averages frame20
  refine ⟨?_, ?_, ?_, ?_⟩
  · exact h.2.2.1 18 (by decide) (by decide)
  · rw [h.2.2.2.1 19 (by decide) (by decide)]
    norm_num [frame20]
  · exact h.2.2.2.2.2.2.1 1 _ rfl
  · rw [h.2.2.2.2.2.2.2 0 (by decide)]
    rw [h.2.2.2.2.2.2.1 1 _ rfl]
    norm_num [frame20]

/-- **C7 (counterexample to the claim as stated).** Not every pipeline
operation leaves the raw input frame unchanged: on the scenario frame,
which has no `adjusted_close` column, `calculate_adj_open` back-writes
the fallback `adjusted_close := close` into the frame
(`data['Adj Close'] = data['Close']`), so the output's `adjusted_close`
field differs from the input's. -/
theorem claim_C7_counterexample :
    (calculate_adj_open scenarioFrame).AdjClose ≠ scenarioFrame.AdjClose := by
  decide

/-- **C7 (amended).** Every pipeline operation preserves the raw `date`,
`open`, `high`, `low`, `close` and `volume` columns and back-writes no
derived value into them; `adjusted_close` is preserved by every
operation except `calculate_adj_open`, which preserves it when present
and otherwise materialises the documented fallback
`adjusted_close := close`.  Recomputation is deterministic: the
operations are pure functions of the input frame. -/
theorem claim_C7_raw_preservation (d : DataFrame) :
    rawEq (calculate_profit_loss d) d ∧
    rawEq (add_end_result d) d ∧
    rawEq (create_candlestick_chart d) d ∧
    (calculate_adj_open d).Date = d.Date ∧
    (calculate_adj_open d).Open = d.Open ∧
    (calculate_adj_open d).High = d.High ∧
    (calculate_adj_open d).Low = d.Low ∧
    (calculate_adj_open d).Close = d.Close ∧
    (calculate_adj_open d).Volume = d.Volume ∧
    (∀ ac, d.AdjClose = some ac → (calculate_adj_open d).AdjClose = some ac) ∧
    (d.AdjClose = none → (calculate_adj_open d).AdjClose = some d.Close) := by
  rcases hA : d.AdjClose with _ | ac <;>
    simp [rawEq, calculate_profit_loss, add_end_result, create_candlestick_chart,
      calculate_adj_open, hA]

/-- Concrete instance of the amended C7: on the scenario frame
`calculate_profit_loss` preserves all raw columns, and
`calculate_adj_open` fills the missing `adjusted_close` with the close
column. -/
theorem claim_C7_witness :
    rawEq (calculate_profit_loss scenarioFrame) scenarioFrame ∧
    (calculate_adj_open scenarioFrame).AdjClose = some scenarioFrame.Close :=
  ⟨(claim_C7_raw_preservation scenarioFrame).1,
    (claim_C7_raw_preservation scenarioFrame).2.2.2.2.2.2.2.2.2.2 rfl⟩

/-- **C8.** The sharpe ratio of `evaluate_investment` equals
`total_return / volatility` whenever the volatility is nonzero; at
volatility exactly zero it is the undefined sentinel `none` — not an
error (the function is total) and not a computed zero. -/
theorem claim_C8_sharpe (total_return v : ℚ) :
    (v ≠ 0 → (evaluate_investment total_return (some v)).2 = some (total_return / v)) ∧
    (v = 0 → (evaluate_investment total_return (some v)).2 = none) ∧
    (evaluate_investment total_return (some 0)).2 ≠ some 0 := by
  refine ⟨?_, ?_, ?_⟩
  · intro hv; simp [evaluate_investment, hv]
  · intro hv; simp [evaluate_investment, hv]
  · simp [evaluate_investment]

/-- Concrete instance of C8: volatility 2 gives sharpe `1/2`,
volatility 0 gives the undefined sentinel. -/
theorem claim_C8_witness :
    (evaluate_investment 1 (some 2)).2 = some (1 / 2) ∧
    (evaluate_investment 1 (some 0)).2 = none :=
  ⟨(claim_C8_sharpe 1 2).1 (by norm_num), (claim_C8_sharpe 1 0).2.1 rfl⟩

/-- **C9.** On a non-empty series, `calculate_growth` returns the pair
`(open[last] - open[first], 100·(open[last] - open[first])/open[first])`,
and when `open[first]` is exactly zero the percentage is the guarded `0`
rather than a division. -/
theorem claim_C9_growth (d : DataFrame) (_hne : d.Open ≠ []) :
    (calculate_growth d).1 = d.Open.getLastD 0 - d.Open.headD 0 ∧
    (d.Open.headD 0 ≠ 0 →
      (calculate_growth d).2 =
        100 * (d.Open.getLastD 0 - d.Open.headD 0) / d.Open.headD 0) ∧
    (d.Open.headD 0 = 0 → (calculate_growth d).2 = 0) := by
  refine ⟨rfl, ?_, ?_⟩
  · intro h0
    simp only [calculate_growth, ne_eq, h0, not_false_eq_true, if_true]
    ring
  · intro h0
    simp only [calculate_growth]
    rw [if_neg (not_not_intro h0)]

/-- Concrete instance of C9 on the scenario frame (opens 10, 12, 11):
growth value `1`, growth percentage `10`. -/
theorem claim_C9_witness :
    (calculate_growth scenarioFrame).1 = 1 ∧
    (calculate_growth scenarioFrame).2 = 10 := by
  have h := claim_C9_growth scenarioFrame (by decide)
  constructor
  · rw [h.1]; norm_num [scenarioFrame]
  · rw [h.2.1 (by norm_num [scenarioFrame])]; norm_num [scenarioFrame]

/-- **C10.** On a non-empty frame, the `'Today Open Price'` selection is
a function of the wall-clock date `today`, not of the data alone: it is
the last open when the last date equals `today`, the last adjusted close
when the last date is before `today`, and `None` when the last date is
after `today`; consequently the same data evaluated on the last date and
on its eve produces different records. -/
theorem claim_C10_today_open (dates : List ℤ) (opens adjcloses : List ℚ)
    (today : ℤ) (hne : dates ≠ []) :
    (dates.getLastD 0 = today →
      today_open_price dates opens adjcloses today = some (opens.getLastD 0)) ∧
    (dates.getLastD 0 < today →
      today_open_price dates opens adjcloses today = some (adjcloses.getLastD 0)) ∧
    (today < dates.getLastD 0 →
      today_open_price dates opens adjcloses today = none) ∧
    today_open_price dates opens adjcloses (dates.getLastD 0) =
      some (opens.getLastD 0) ∧
    today_open_price dates opens adjcloses (dates.getLastD 0 - 1) = none := by
  have hlen : 0 < dates.length := List.length_pos.mpr hne
  refine ⟨?_, ?_, ?_, ?_, ?_⟩ <;> simp only [today_open_price]
  · intro h; rw [if_pos h]
  · intro h; rw [if_neg (by omega), if_pos h, if_pos hlen]
  · intro h; rw [if_neg (by omega), if_neg (by omega)]
  · simp
  · split_ifs with h1 h2 <;> first | omega | rfl

/-- Concrete instance of C10: dates `[1, 2]`, opens `[10, 20]`, adjusted
closes `[11, 21]`; run on day 2 the record holds the last open `20`, run
on day 3 it holds the last adjusted close `21`, run on day 1 it is
`none` — same data, three different records. -/
theorem claim_C10_witness :
    today_open_price [1, 2] [10, 20] [11, 21] 2 = some 20 ∧
    today_open_price [1, 2] [10, 20] [11, 21] 3 = some 21 ∧
    today_open_price [1, 2] [10, 20] [11, 21] 1 = none := by
  refine ⟨?_, ?_, ?_⟩
  · rw [(claim_C10_today_open [1, 2] [10, 20] [11, 21] 2 (by decide)).1 (by decide)]
    rfl
  · rw [(claim_C10_today_open [1, 2] [10, 20] [11, 21] 3 (by decide)).2.1 (by decide)]
    rfl
  · exact (claim_C10_today_open [1, 2] [10, 20] [11, 21] 1 (by decide)).2.2.1 (by decide)

end Doonde
